import Mathlib

/-!
Verification development for the KeepUp coaching backend
(workflow orchestration core: agent memory, risk assessment, JSON
response parsing, debate synthesis, pipeline steps).

The Python source is shallowly embedded: Python dicts/JSON payloads
become the inductive type `JVal`, Python floats become `ℚ` (exact
real-number semantics; the claims under study are about algebraic
relationships, not bit-level float rounding), datetimes become `ℚ`
time stamps, and fallible code returns `Except`.  External
collaborators (the LLM generation call, the database driver, plan
generators) enter as explicit parameters carrying their result, as the
specification treats them as opaque capabilities.
-/

/-! ## Python string primitives, modelled over `List Char` -/

/-- Python string whitespace for `str.strip()`:
space, tab, newline, carriage return, vertical tab, form feed. -/
def pyIsSpace (c : Char) : Bool :=
  c == ' ' || c == '\t' || c == '\n' || c == '\r' || c == '\x0b' || c == '\x0c'

/-- `str.strip()`: drop leading and trailing whitespace. -/
def pyStrip (s : List Char) : List Char :=
  ((s.dropWhile pyIsSpace).reverse.dropWhile pyIsSpace).reverse

/-- Does `p` occur as a leading segment of `s`? -/
def leadsWith : List Char → List Char → Bool
  | [], _ => true
  | _ :: _, [] => false
  | p :: ps, c :: cs => p == c && leadsWith ps cs

/-- Fuelled worker for `pyReplace` (fuel keeps the recursion structural so
that the kernel can evaluate it). -/
def pyReplaceFuel (pat rep : List Char) : Nat → List Char → List Char
  | 0, s => s
  | _ + 1, [] => []
  | fuel + 1, c :: cs =>
    if pat ≠ [] && leadsWith pat (c :: cs) then
      rep ++ pyReplaceFuel pat rep fuel ((c :: cs).drop pat.length)
    else
      c :: pyReplaceFuel pat rep fuel cs

/-- Python `str.replace(pat, rep)`: replace every occurrence, scanning
left to right, non-overlapping.  (The source only ever replaces with the
empty string; the general form is kept for fidelity.) -/
def pyReplace (s pat rep : List Char) : List Char :=
  pyReplaceFuel pat rep (s.length + 1) s

/-- Python `needle in haystack` on strings (substring containment). -/
def isSubstr (pat : List Char) : List Char → Bool
  | [] => pat.isEmpty
  | c :: cs => leadsWith pat (c :: cs) || isSubstr pat cs

/-- Python `str.lower()` (ASCII-faithful). -/
def pyLower (s : List Char) : List Char := s.map Char.toLower

/-- Python `str.upper()` (ASCII-faithful). -/
def pyUpper (s : List Char) : List Char := s.map Char.toUpper

/-- Index of the first occurrence of character `c`, Python `str.find`
(restricted to single-character needles, which is all the source uses). -/
def pyFindChar (c : Char) : List Char → Option Nat
  | [] => none
  | d :: ds => if d == c then some 0 else (pyFindChar c ds).map (· + 1)

/-- Index of the last occurrence of character `c`, Python `str.rfind`
(restricted to single-character needles). -/
def pyRFindChar (c : Char) (s : List Char) : Option Nat :=
  (pyFindChar c s.reverse).map (fun i => s.length - 1 - i)

/-- Python slice `s[a:b]` (for `0 ≤ a ≤ b` as used in the source;
`b ≤ a` yields the empty string, as in Python). -/
def pySlice (s : List Char) (a b : Nat) : List Char :=
  (s.drop a).take (b - a)

/-! ## JSON values

`JVal` embeds the Python-side JSON payloads (`dict` / `list` / `str` /
numbers / booleans / `None`).  Numbers are `ℚ` (exact arithmetic).
Objects are association lists in insertion order; Python's `json`
module keeps the **last** binding for a duplicated key, so lookups scan
from the right. -/

inductive JVal where
  | jnull : JVal
  | jbool : Bool → JVal
  | jnum : ℚ → JVal
  | jstr : String → JVal
  | jarr : List JVal → JVal
  | jobj : List (String × JVal) → JVal

/-- Lookup in an object: Python dict semantics (last binding wins).
Returns `none` when the key is absent or the value is not an object. -/
def objGet (v : JVal) (key : String) : Option JVal :=
  match v with
  | .jobj fields => (fields.reverse.find? (fun kv => kv.1 == key)).map (·.2)
  | _ => none

/-- Python dict `.get(key, default)`. -/
def objGetD (v : JVal) (key : String) (dflt : JVal) : JVal :=
  (objGet v key).getD dflt

/-- Is the value a Python dict? -/
def isObj : JVal → Bool
  | .jobj _ => true
  | _ => false

/-- Python truthiness of a JSON payload. -/
def pyTruthy : JVal → Bool
  | .jnull => false
  | .jbool b => b
  | .jnum q => q ≠ 0
  | .jstr s => s ≠ ""
  | .jarr xs => ¬ xs.isEmpty
  | .jobj fs => ¬ fs.isEmpty

/-! ## JSON parsing (embedding of `json.loads` as used by the agents)

A recursive-descent parser with explicit fuel so every function is
structurally recursive and kernel-evaluable.  It implements the JSON
grammar Python's `json.loads` accepts (strict numbers without leading
zeros, string escapes, last-binding-wins duplicate keys, arbitrary
top-level values, surrounding whitespace).  Python's non-standard
`NaN`/`Infinity` extension is not modelled; no claim touches it. -/

/-- JSON structural whitespace. -/
def jsonWs (c : Char) : Bool :=
  c == ' ' || c == '\t' || c == '\n' || c == '\r'

def skipWs (s : List Char) : List Char := s.dropWhile jsonWs

/-- `Char.ofNat 123` / `125`: the two brace characters. -/
def lbrace : Char := Char.ofNat 123

def rbrace : Char := Char.ofNat 125

def isDigitCh (c : Char) : Bool := 48 ≤ c.toNat && c.toNat ≤ 57

def digitNat (c : Char) : Nat := c.toNat - 48

def natOfDigits (ds : List Char) : Nat :=
  ds.foldl (fun n c => 10 * n + digitNat c) 0

def hexVal (c : Char) : Option Nat :=
  if isDigitCh c then some (digitNat c)
  else if 97 ≤ c.toNat && c.toNat ≤ 102 then some (c.toNat - 97 + 10)
  else if 65 ≤ c.toNat && c.toNat ≤ 70 then some (c.toNat - 65 + 10)
  else none

/-- JSON number grammar: `-? (0 | [1-9][0-9]*) (. [0-9]+)? ([eE][+-]?[0-9]+)?`.
A number without fraction or exponent is returned as an integer cast
directly (same value, and the kernel can evaluate it); the general form
uses exact `ℚ` arithmetic. -/
def pNumber (s : List Char) : Option (ℚ × List Char) :=
  let (neg, s1) := match s with | '-' :: r => (true, r) | _ => (false, s)
  let (ip, s2) := s1.span isDigitCh
  if ip.isEmpty || (decide (1 < ip.length) && ip.head? == some '0') then none
  else
    let fres : Option (Option (List Char)) × List Char :=
      match s2 with
      | '.' :: r =>
        let (fd, r2) := r.span isDigitCh
        if fd.isEmpty then (none, s2)
        else (some (some fd), r2)
      | _ => (some none, s2)
    match fres with
    | (none, _) => none
    | (some fd, s3) =>
      let eres : Option (Option Int) × List Char :=
        match s3 with
        | e :: r =>
          if e == 'e' || e == 'E' then
            let (es, r1) : Int × List Char :=
              match r with
              | '+' :: r2 => (1, r2)
              | '-' :: r2 => (-1, r2)
              | _ => (1, r)
            let (ed, r2) := r1.span isDigitCh
            if ed.isEmpty then (none, s3) else (some (some (es * (natOfDigits ed : Int))), r2)
          else (some none, s3)
        | [] => (some none, s3)
      match eres with
      | (none, _) => none
      | (some exOpt, s4) =>
        let mag : ℚ :=
          match fd, exOpt with
          | none, none => (natOfDigits ip : ℚ)
          | _, _ =>
            let fr : ℚ :=
              match fd with
              | none => 0
              | some ds => (natOfDigits ds : ℚ) / (10 : ℚ) ^ ds.length
            ((natOfDigits ip : ℚ) + fr) * (10 : ℚ) ^ (exOpt.getD 0)
        some ((if neg then -mag else mag), s4)

/-- JSON string body after the opening quote.  Handles the escape
sequences `json.loads` accepts; `\uXXXX` decodes the code unit directly
(surrogate-pair recombination is not modelled; no claim touches it). -/
def pStrBody : Nat → List Char → Option (List Char × List Char)
  | 0, _ => none
  | _ + 1, [] => none
  | fuel + 1, c :: cs =>
    if c == '"' then some ([], cs)
    else if c == '\\' then
      match cs with
      | [] => none
      | e :: cs2 =>
        if e == 'u' then
          match cs2 with
          | h1 :: h2 :: h3 :: h4 :: cs3 =>
            match hexVal h1, hexVal h2, hexVal h3, hexVal h4 with
            | some a, some b, some c1, some d =>
              (pStrBody fuel cs3).map
                (fun p => (Char.ofNat (((a * 16 + b) * 16 + c1) * 16 + d) :: p.1, p.2))
            | _, _, _, _ => none
          | _ => none
        else
          let dec : Option Char :=
            if e == '"' then some '"'
            else if e == '\\' then some '\\'
            else if e == '/' then some '/'
            else if e == 'b' then some '\x08'
            else if e == 'f' then some '\x0c'
            else if e == 'n' then some '\n'
            else if e == 'r' then some '\r'
            else if e == 't' then some '\t'
            else none
          match dec with
          | none => none
          | some d => (pStrBody fuel cs2).map (fun p => (d :: p.1, p.2))
    else if c.toNat < 32 then none
    else (pStrBody fuel cs).map (fun p => (c :: p.1, p.2))

mutual

def pVal : Nat → List Char → Option (JVal × List Char)
  | 0, _ => none
  | fuel + 1, s =>
    match skipWs s with
    | [] => none
    | c :: cs =>
      if c == lbrace then
        match skipWs cs with
        | [] => none
        | d :: rest =>
          if d == rbrace then some (.jobj [], rest)
          else pMembers fuel (d :: rest) []
      else if c == '[' then
        match skipWs cs with
        | [] => none
        | d :: rest =>
          if d == ']' then some (.jarr [], rest)
          else pElems fuel (d :: rest) []
      else if c == '"' then
        (pStrBody (cs.length + 1) cs).map (fun p => (.jstr (String.mk p.1), p.2))
      else if leadsWith ['t', 'r', 'u', 'e'] (c :: cs) then
        some (.jbool true, cs.drop 3)
      else if leadsWith ['f', 'a', 'l', 's', 'e'] (c :: cs) then
        some (.jbool false, cs.drop 4)
      else if leadsWith ['n', 'u', 'l', 'l'] (c :: cs) then
        some (.jnull, cs.drop 3)
      else
        (pNumber (c :: cs)).map (fun p => (.jnum p.1, p.2))

def pMembers : Nat → List Char → List (String × JVal) → Option (JVal × List Char)
  | 0, _, _ => none
  | fuel + 1, s, acc =>
    match skipWs s with
    | '"' :: cs =>
      match pStrBody (cs.length + 1) cs with
      | none => none
      | some (k, r1) =>
        match skipWs r1 with
        | ':' :: r2 =>
          match pVal fuel r2 with
          | none => none
          | some (v, r3) =>
            match skipWs r3 with
            | [] => none
            | d :: r4 =>
              if d == ',' then pMembers fuel r4 (acc ++ [(String.mk k, v)])
              else if d == rbrace then some (.jobj (acc ++ [(String.mk k, v)]), r4)
              else none
        | _ => none
    | _ => none

def pElems : Nat → List Char → List JVal → Option (JVal × List Char)
  | 0, _, _ => none
  | fuel + 1, s, acc =>
    match pVal fuel s with
    | none => none
    | some (v, r1) =>
      match skipWs r1 with
      | [] => none
      | d :: r2 =>
        if d == ',' then pElems fuel r2 (acc ++ [v])
        else if d == ']' then some (.jarr (acc ++ [v]), r2)
        else none

end

/-- `json.loads`: parse a whole string as a single JSON value; only
trailing whitespace may remain. -/
def parseJson (s : List Char) : Option JVal :=
  match pVal (2 * s.length + 2) s with
  | some (v, rest) => if (skipWs rest).isEmpty then some v else none
  | none => none

/-! ## `BaseAgent._parse_json_response` (src/backend/agents/base_agent.py:140-171)

Tier 1: `json.loads(response)`.  Tier 2: remove the fence markers
` ```json ` and ` ``` `, `strip()`, find the first brace-open and the
last brace-close, and parse that slice.  Any failure falls through to
the error sentinel; the function never raises.  Python detail kept:
`end = cleaned.rfind(closing) + 1`, so when there is no closing brace
`end` is `0` (not `-1`), the `end == -1` guard never fires, and the
empty slice is handed to `json.loads`, which fails. -/

/-- The error sentinel returned when both parse attempts fail. -/
def parseSentinel (response : String) : JVal :=
  .jobj [("error", .jstr "Failed to parse LLM response"),
         ("raw_response", .jstr response)]

/-- Lines 152-153 of base_agent.py: strip fence markers, then `strip()`. -/
def fenceClean (s : List Char) : List Char :=
  pyStrip (pyReplace (pyReplace s "```json".data "".data) "```".data "".data)

/-- `BaseAgent._parse_json_response`. -/
def parse_json_response (response : String) : JVal :=
  match parseJson response.data with
  | some v => v
  | none =>
    let cleaned := fenceClean response.data
    match pyFindChar lbrace cleaned with
    | none => parseSentinel response
    | some start =>
      let stop : Nat :=
        match pyRFindChar rbrace cleaned with
        | some j => j + 1
        | none => 0
      match parseJson (pySlice cleaned start stop) with
      | some v => v
      | none => parseSentinel response

/-- Modelled from the spec (§4.2 output-parsing policy): the fallback
extraction described as "strip fence markers, locate the first brace-open
and the last brace-close, parse that substring".  Returns `none` when no
such substring exists. -/
def specFallbackSlice (response : String) : Option (List Char) :=
  let cleaned := fenceClean response.data
  match pyFindChar lbrace cleaned, pyRFindChar rbrace cleaned with
  | some i, some j => if i ≤ j then some (pySlice cleaned i (j + 1)) else none
  | _, _ => none

/-! ## `BaseAgent.challenge` (src/backend/agents/base_agent.py:176-217)

The method builds prompts, calls the LLM (entering here as the opaque
`response` string), parses with `_parse_json_response`, and re-packages
the fields.  `parsed.get(...)` requires `parsed` to be a dict, and
`.lower()` requires the stance value to be a string; otherwise Python
raises `AttributeError`, modelled as `Except.error`. -/

structure ChallengeOut where
  stance : String
  reasoning : JVal
  concerns : JVal
  counter_proposal : JVal
  confidence : JVal
  raw : JVal

/-- `BaseAgent.challenge`, as a function of the generation output. -/
def challenge (response : String) : Except String ChallengeOut :=
  let parsed := parse_json_response response
  if isObj parsed then
    match (objGet parsed "stance").getD (.jstr "unknown") with
    | .jstr s =>
      .ok { stance := String.mk (pyLower s.data)
            reasoning := objGetD parsed "reasoning" (.jstr "")
            concerns := objGetD parsed "concerns" (.jarr [])
            counter_proposal := objGetD parsed "counter_proposal" .jnull
            confidence := objGetD parsed "confidence" (.jnum (1 / 2))
            raw := parsed }
    | _ => .error "AttributeError: lower"
  else .error "AttributeError: get"

/-! ## Agent memory (src/backend/memory/agent_memory.py)

The `user_memories` table is a list of rows; datetimes are `ℚ`
timestamps measured in days (so `timedelta(days=d)` is `+ d`), and
`datetime.utcnow()` enters as an explicit `now` parameter.  SQLAlchemy
details kept: `scalar_one_or_none` raises when several rows match one
(user, agent, learning_type) key; a row `db.add`ed earlier in the same
`persist_from_state` call is visible to later queries (autoflush);
`ORDER BY confidence DESC, updated_at DESC`. -/

structure MemRow where
  user_id : Int
  agent_name : String
  learning_type : String
  content : JVal
  confidence : ℚ
  expires_at : Option ℚ
  created_at : ℚ
  updated_at : ℚ

/-- The WHERE conditions of `load_to_state` (lines 56-72): same user,
`confidence >= 0.5`, not expired, plus the two optional filters. -/
def loadCond (uid : Int) (now : ℚ) (ftype fagent : Option String) (r : MemRow) : Bool :=
  r.user_id == uid &&
  decide ((1 : ℚ) / 2 ≤ r.confidence) &&
  (match r.expires_at with
   | none => true
   | some t => decide (now < t)) &&
  (match ftype with
   | none => true
   | some t => r.learning_type == t) &&
  (match fagent with
   | none => true
   | some a => r.agent_name == a)

/-- `ORDER BY confidence DESC, updated_at DESC` as a relation on rows. -/
def memLe (a b : MemRow) : Prop :=
  b.confidence < a.confidence ∨
    (a.confidence = b.confidence ∧ b.updated_at ≤ a.updated_at)

instance : DecidableRel memLe := fun a b => by
  unfold memLe; infer_instance

instance : IsTotal MemRow memLe := by
  constructor
  intro a b
  rcases lt_trichotomy a.confidence b.confidence with h | h | h
  · exact Or.inr (Or.inl h)
  · rcases le_total b.updated_at a.updated_at with h2 | h2
    · exact Or.inl (Or.inr ⟨h, h2⟩)
    · exact Or.inr (Or.inr ⟨h.symm, h2⟩)
  · exact Or.inl (Or.inl h)

instance : IsTrans MemRow memLe := by
  constructor
  intro a b c hab hbc
  rcases hab with h1 | ⟨h1, h1u⟩ <;> rcases hbc with h2 | ⟨h2, h2u⟩
  · exact Or.inl (h2.trans h1)
  · exact Or.inl (h2 ▸ h1)
  · exact Or.inl (h1 ▸ h2)
  · exact Or.inr ⟨h1.trans h2, h2u.trans h1u⟩

/-- One entry of the `memory_dict` mappings built in the load loop
(lines 91-98; the `isoformat()` strings are represented by the
underlying timestamps). -/
structure MemDict where
  agent_name : String
  learning_type : String
  content : JVal
  confidence : ℚ
  created_at : ℚ
  updated_at : ℚ

def toMemDict (r : MemRow) : MemDict :=
  ⟨r.agent_name, r.learning_type, r.content, r.confidence, r.created_at, r.updated_at⟩

/-- The `memory_data` result of `load_to_state`.  The Python loop builds
`by_type` / `by_agent` as dicts of lists, appending in iteration order;
each bucket therefore equals the order-preserving filter of `all` by
that key, which is how the buckets are represented. -/
structure MemoryData where
  all : List MemDict
  by_type : String → List MemDict
  by_agent : String → List MemDict

/-- `AgentMemory.load_to_state` (lines 26-113).  The `state_type`
argument is unused by the source and omitted. -/
def load_to_state (uid : Int) (store : List MemRow) (now : ℚ)
    (ftype fagent : Option String) : MemoryData :=
  let rows := List.insertionSort memLe (store.filter (loadCond uid now ftype fagent))
  let allEntries := rows.map toMemDict
  { all := allEntries
    by_type := fun t => allEntries.filter (fun d => d.learning_type == t)
    by_agent := fun a => allEntries.filter (fun d => d.agent_name == a) }

/-- One element of `state["memory_updates"]`, with `update.get(...)`
absence modelled by `Option`. -/
structure MemUpdate where
  agent_name : Option String
  learning_type : Option String
  content : Option JVal
  confidence : Option ℚ
  expires_after_days : Option Int

def strTruthy : Option String → Bool
  | none => false
  | some s => s ≠ ""

def jvalTruthy : Option JVal → Bool
  | none => false
  | some v => pyTruthy v

/-- Line 148: `if not all([agent_name, learning_type, content]): continue`. -/
def validUpdate (u : MemUpdate) : Bool :=
  strTruthy u.agent_name && strTruthy u.learning_type && jvalTruthy u.content

def keyMatch (uid : Int) (a t : String) (r : MemRow) : Bool :=
  r.user_id == uid && r.agent_name == a && r.learning_type == t

/-- The body of the per-update loop of `persist_from_state`
(lines 141-183). -/
def applyUpdate (uid : Int) (now : ℚ) (store : List MemRow) (u : MemUpdate) :
    Except String (List MemRow) :=
  if ¬ validUpdate u then .ok store
  else
    let a := u.agent_name.getD ""
    let t := u.learning_type.getD ""
    let content := u.content.getD .jnull
    match store.filter (keyMatch uid a t) with
    | [] =>
      let expiresAt : Option ℚ :=
        match u.expires_after_days with
        | some d => if d ≠ 0 then some (now + (d : ℚ)) else none
        | none => none
      .ok (store ++ [{ user_id := uid, agent_name := a, learning_type := t,
                       content := content, confidence := u.confidence.getD 1,
                       expires_at := expiresAt, created_at := now,
                       updated_at := now }])
    | [_] =>
      .ok (store.map (fun r =>
        if keyMatch uid a t r then
          { r with confidence := min 1 (r.confidence + 1 / 10),
                   content := content, updated_at := now }
        else r))
    | _ => .error "MultipleResultsFound"

/-- `AgentMemory.persist_from_state` (lines 115-185).  The early
`if not memory_updates: return` coincides with folding over `[]`. -/
def persist_from_state (uid : Int) (updates : List MemUpdate)
    (store : List MemRow) (now : ℚ) : Except String (List MemRow) :=
  updates.foldlM (fun st u => applyUpdate uid now st u) store

/-! ## Risk assessment
(`WorkoutModificationAgent._comprehensive_risk_assessment`,
src/backend/agents/adaptive_intervention/workout_modification_agent.py:89-192)

A pure function of the profile / workout plan / context mappings; the
threshold rules are embedded exactly, with `dict.get` defaults kept. -/

structure RiskFactor where
  rtype : String
  severity : ℚ
  detail : Option String := none
  exercise : Option String := none
  injury : Option String := none

structure RAUserProfile where
  past_injuries : List String := []
  age : Option Int := none
  fitness_level : Option String := none

structure RAContext where
  sleep_quality : Option Int := none
  stress_level : Option String := none
  days_since_last_workout : Option Int := none

structure RAExercise where
  name : Option String := none

def HIGH_RISK_EXERCISES : List String :=
  ["barbell back squat", "deadlift", "overhead press",
   "clean and jerk", "snatch", "box jumps"]

/-- The `conflict_map` of `_exercise_conflicts_with_injury`
(lines 194-209), in source order. -/
def conflictMap : List (String × List String) :=
  [("knee", ["squat", "lunge", "leg press", "jump"]),
   ("shoulder", ["overhead press", "bench press", "pull-up", "row"]),
   ("back", ["deadlift", "squat", "row", "hyperextension"]),
   ("ankle", ["jump", "run", "calf raise"]),
   ("wrist", ["push-up", "plank", "overhead press"])]

/-- `_exercise_conflicts_with_injury`: scan `conflict_map` in order and
answer at the **first** body part contained in the lowered injury text
(Python returns inside the loop, even when the answer is `False`). -/
def conflictScan (exName il : List Char) : List (String × List String) → Bool
  | [] => false
  | (bp, exs) :: rest =>
    if isSubstr bp.data il then exs.any (fun e => isSubstr e.data exName)
    else conflictScan exName il rest

def exercise_conflicts_with_injury (exName : List Char) (injury : String) : Bool :=
  conflictScan exName (pyLower injury.data) conflictMap

structure RiskAssessment where
  user_risks : List RiskFactor
  context_risks : List RiskFactor
  exercise_risks : List RiskFactor
  interaction_risks : List RiskFactor
  overall_risk_score : ℚ
  total_risk_factors : Nat

/-- `_comprehensive_risk_assessment` (lines 89-192). -/
def comprehensive_risk_assessment (p : RAUserProfile) (plan : List RAExercise)
    (c : RAContext) : RiskAssessment :=
  let userRisks : List RiskFactor :=
    (p.past_injuries.map (fun inj =>
      { rtype := "injury_history", detail := some inj, severity := 7 / 10 })) ++
    (let age := p.age.getD 30
     if age > 50 then
       [{ rtype := "age",
          detail := some ("Age " ++ toString age ++ " - slower recovery"),
          severity := 1 / 2 }]
     else if age < 20 then
       [{ rtype := "age", detail := some "Growth plate considerations",
          severity := 3 / 10 }]
     else []) ++
    (if p.fitness_level.getD "beginner" == "beginner" then
       [{ rtype := "fitness_level", detail := some "Beginner - form risk",
          severity := 6 / 10 }]
     else [])
  let sq := c.sleep_quality.getD 3
  let contextRisks : List RiskFactor :=
    (if sq ≤ 2 then
       [{ rtype := "sleep",
          detail := some ("Poor sleep quality (" ++ toString sq ++ "/5)"),
          severity := 8 / 10 }]
     else if sq == 3 then
       [{ rtype := "sleep",
          detail := some ("Average sleep quality (" ++ toString sq ++ "/5)"),
          severity := 4 / 10 }]
     else []) ++
    (if c.stress_level.getD "low" == "high" then
       [{ rtype := "stress", detail := some "High stress - cortisol elevated",
          severity := 7 / 10 }]
     else []) ++
    (let days := c.days_since_last_workout.getD 1
     if days > 7 then
       [{ rtype := "detraining", detail := some (toString days ++ " days inactive"),
          severity := 6 / 10 }]
     else [])
  let exerciseRisks : List RiskFactor :=
    plan.filterMap (fun ex =>
      let nameLower := pyLower (ex.name.getD "").data
      if HIGH_RISK_EXERCISES.any (fun r => isSubstr r.data nameLower) then
        some { rtype := "high_risk_movement", exercise := ex.name,
               detail := some "Complex compound requiring technical proficiency",
               severity := 8 / 10 }
      else none)
  let interactionRisks : List RiskFactor :=
    plan.flatMap (fun ex =>
      let nameLower := pyLower (ex.name.getD "").data
      p.past_injuries.filterMap (fun inj =>
        if exercise_conflicts_with_injury nameLower inj then
          some { rtype := "injury_conflict", exercise := ex.name,
                 injury := some inj, severity := 9 / 10 }
        else none))
  let allRisks := userRisks ++ contextRisks ++ exerciseRisks ++ interactionRisks
  let avgSeverity : ℚ :=
    if ¬ allRisks.isEmpty then
      (allRisks.map (·.severity)).sum / allRisks.length
    else 1 / 10
  { user_risks := userRisks, context_risks := contextRisks,
    exercise_risks := exerciseRisks, interaction_risks := interactionRisks,
    overall_risk_score := avgSeverity, total_risk_factors := allRisks.length }

/-! ## Python exceptions -/

inductive PyErr where
  | nameErr (msg : String)
  | typeErr (msg : String)
  | keyErr (msg : String)
  | attrErr (msg : String)
  | exc (msg : String)
deriving DecidableEq

/-! ## Meta-Coordinator (src/backend/agents/meta_coordinator.py)

`synthesize_debate(self, debate_history)` builds its user prompt with
the f-string at lines 79-93, whose first interpolation is
`primary_goal.upper()`.  `primary_goal` is bound neither in the method
(its only parameter besides `self` is `debate_history`) nor at module
scope, so evaluating the f-string raises
`NameError: name 'primary_goal' is not defined` on **every** call,
before the LLM is reached.  Both call sites
(`process_node` at line 151 and
`OnboardingWorkflow._coordination_node` at line 156) additionally pass
`primary_goal` as a second positional argument, which raises a
`TypeError` at the call itself. -/

def synthesize_debate (_debate_history : List JVal) (_llm_response : String) :
    Except PyErr JVal :=
  .error (.nameErr "name primary_goal is not defined")

/-- Python dict assignment `d[k] = v`. -/
def setKey (fields : List (String × JVal)) (k : String) (v : JVal) :
    List (String × JVal) :=
  if fields.any (fun kv => kv.1 == k) then
    fields.map (fun kv => if kv.1 == k then (k, v) else kv)
  else fields ++ [(k, v)]

/-- The placeholder block of lines 119-123. -/
def summaryPlaceholder : JVal :=
  .jobj [("goal_agent_position", .jstr "Summary unavailable"),
         ("failure_agent_position", .jstr "Summary unavailable"),
         ("synthesis_rationale", .jstr "Summary unavailable")]

/-- Lines 117-125 of `synthesize_debate` — the "safety check" that
default-fills a missing/None `debate_summary` and returns `parsed`
otherwise (dead code behind the NameError above, embedded to examine
what it would produce).  On a non-dict `parsed`, the membership test
or the item assignment raises `TypeError`. -/
def synthDefaultFill (parsed : JVal) : Except PyErr JVal :=
  match parsed with
  | .jobj fields =>
    let missing :=
      match objGet parsed "debate_summary" with
      | none => true
      | some .jnull => true
      | some _ => false
    if missing then .ok (.jobj (setKey fields "debate_summary" summaryPlaceholder))
    else .ok parsed
  | _ => .error (.typeErr "argument of type is not a dict")

/-! ## Onboarding workflow state and nodes
(src/backend/workflows/onboarding_workflow.py, src/backend/workflows/state.py) -/

structure OnbState where
  user_id : String := ""
  resolution_text : String := ""
  past_attempts : Option String := none
  life_constraints : Option JVal := none
  goal_analysis : Option JVal := none
  failure_risk : Option JVal := none
  failure_agent_challenge : Option JVal := none
  final_plan : Option JVal := none
  debate_summary : Option JVal := none
  safety_adjustments : Option JVal := none
  confidence_score : Option JVal := none
  primary_goal : Option JVal := none
  user_memory : Option JVal := none
  memory_updates : Option JVal := none
  timestamp : Option String := none
  errors : Option (List String) := none
  user_profile : Option JVal := none

/-- `OnboardingWorkflow._goal_setting_node` (lines 75-87), as a function
of the result of `self.goal_agent.analyze(...)` (`Except.error` when the
underlying generation call raised).  There is **no** try/except here:
a raising call propagates out of the step, and
`state["goal_analysis"] = result["goal_analysis"]` itself raises when
the key is absent or the result is not a dict. -/
def goal_setting_node (analyzeResult : Except PyErr JVal) (st : OnbState) :
    Except PyErr OnbState :=
  match analyzeResult with
  | .error e => .error e
  | .ok r =>
    if isObj r then
      match objGet r "goal_analysis" with
      | some v => .ok { st with goal_analysis := some v }
      | none => .error (.keyErr "goal_analysis")
    else .error (.typeErr "result is not subscriptable by str")

/-- `OnboardingWorkflow._coordination_node` (lines 110-169).  No
try/except: building the debate history only calls `.get` on the three
state mappings (AttributeError when one is a non-dict value), after
which `self.coordinator.synthesize_debate(debate_history, primary_goal)`
passes two positional arguments to a one-argument method and raises
`TypeError` on every input; the exception propagates to the caller. -/
def coordination_node (st : OnbState) : Except PyErr OnbState :=
  if isObj (st.goal_analysis.getD (.jobj [])) &&
     isObj (st.failure_risk.getD (.jobj [])) &&
     isObj (st.failure_agent_challenge.getD (.jobj [])) then
    .error (.typeErr "synthesize_debate takes 2 positional arguments but 3 were given")
  else .error (.attrErr "get")

/-- `process_node` (meta_coordinator.py lines 127-166): its try block
builds the debate history (plain `state.get` reads, no method calls on
the values), then calls `self.synthesize_debate(debate_history,
primary_goal)`, which raises `TypeError` (two positional arguments to a
one-argument method); the except clause appends one diagnostic to
`state["errors"]` (initialising it when absent) and returns the state. -/
def process_node (st : OnbState) : OnbState :=
  { st with errors := some ((st.errors.getD []) ++
      ["Meta-Coordinator error: synthesize_debate takes 2 positional arguments but 3 were given"]) }

/-! ## Daily-check workflow
(src/backend/workflows/daily_check_workflow.py, the node sequence built
by `run()`:
fetch_profile → load_memory → analyze_biometrics → analyze_occupation →
analyze_emotions → detect_interventions → detect_barriers →
check_schedule → generate_workout → modify_workout → generate_tasks →
save_results.
The second `_save_results_node` definition at line 511 overrides the
first and is the identity.)

Each node wraps its body in try/except; the except clause runs
`errors = state.get("errors") or []; errors.append(msg);
state["errors"] = errors`, which both initialises an absent list and
appends — `errors` is therefore modelled as a plain `List String`.
External calls (agents, database, plan generator) enter as
`Except String JVal` parameters carrying either the awaited value or
`str(e)` of the exception they raised.  Diagnostic message texts for
exceptions raised *inside* a try block (AttributeError / KeyError /
TypeError on dynamic values) are abbreviated; no claim depends on the
text of a diagnostic. -/

structure DCState where
  user_id : String := ""
  user_profile : Option JVal := none
  checkin_data : Option JVal := none
  current_date : Option String := none
  readiness_score : Option JVal := none
  biometric_analysis : Option JVal := none
  occupation_impact : Option JVal := none
  emotional_analysis : Option JVal := none
  active_interventions : Option (List JVal) := none
  calendar_events : Option JVal := none
  schedule_conflicts : Option JVal := none
  temp_focus_shift : Option JVal := none
  focus_shift_reason : Option JVal := none
  daily_plan : Option JVal := none
  morning_briefing : Option JVal := none
  daily_tasks : Option JVal := none
  workout_plan : Option JVal := none
  modifications : Option JVal := none
  errors : List String := []

/-- The except-clause pattern shared by every daily-check node. -/
def pushErr (st : DCState) (msg : String) : DCState :=
  { st with errors := st.errors ++ [msg] }

/-- Python `int(str)`: optional surrounding whitespace, optional sign,
decimal digits. -/
def pyToInt (s : String) : Option Int :=
  let t := pyStrip s.data
  let (sign, ds) : Int × List Char :=
    match t with
    | '-' :: r => (-1, r)
    | '+' :: r => (1, r)
    | _ => (1, t)
  if ds ≠ [] && ds.all isDigitCh then some (sign * (natOfDigits ds : Int)) else none

/-- A `UserDailyLog` check-in row as read at lines 110-117
(`.value` of the enum columns already taken). -/
structure CheckinRow where
  sleep_quality : JVal := .jnull
  energy_level : JVal := .jnull
  soreness_level : JVal := .jnull
  stress_level : JVal := .jnull
  notes : JVal := .jnull

/-- `_fetch_user_context` (lines 87-129).  Mutation order kept: the
profile is stored in the state *before* the check-in query runs, so a
failing check-in query leaves the profile assigned. -/
def fetch_user_context (profileRes : Except String JVal)
    (checkinRes : Except String (Option CheckinRow)) (today : String)
    (st : DCState) : DCState :=
  match pyToInt st.user_id with
  | none => pushErr st "Profile fetch error: invalid literal for int()"
  | some _ =>
    match profileRes with
    | .error e => pushErr st ("Profile fetch error: " ++ e)
    | .ok profile =>
      let st1 := { st with user_profile := some profile }
      match checkinRes with
      | .error e => pushErr st1 ("Profile fetch error: " ++ e)
      | .ok (some c) =>
        { st1 with
          checkin_data := some (.jobj
            [("sleep_quality", c.sleep_quality),
             ("energy_level", c.energy_level),
             ("soreness_level", c.soreness_level),
             ("stress_level", c.stress_level),
             ("notes", c.notes)]),
          current_date := some today }
      | .ok none =>
        { st1 with checkin_data := some (.jobj []), current_date := some today }

/-- `_load_memory_node` (lines 158-164): placeholder, returns the state. -/
def load_memory_node (st : DCState) : DCState := st

/-- `_biometric_analysis_node` (lines 166-190). -/
def biometric_analysis_node (res : Except String JVal) (st : DCState) : DCState :=
  let cd := st.checkin_data.getD (.jobj [])
  if ¬ isObj cd then pushErr st "Biometric analysis error: get" else
  match res with
  | .error e => pushErr st ("Biometric analysis error: " ++ e)
  | .ok r =>
    if ¬ isObj r then pushErr st "Biometric analysis error: get" else
    { st with readiness_score := some (objGetD r "score" (.jnum (7 / 10))),
              biometric_analysis := some r }

/-- `_occupation_analysis_node` (lines 192-215).  The result is stored
whole (no attribute access on it). -/
def occupation_analysis_node (res : Except String JVal) (st : DCState) : DCState :=
  let prof := st.user_profile.getD (.jobj [])
  let cd := st.checkin_data.getD (.jobj [])
  if ¬ (isObj prof && isObj cd) then pushErr st "Occupation analysis error: get" else
  match res with
  | .error e => pushErr st ("Occupation analysis error: " ++ e)
  | .ok r => { st with occupation_impact := some r }

/-- `_emotional_analysis_node` (lines 217-241): skipped (state returned
unchanged) when the check-in carries no truthy `mood`. -/
def emotional_analysis_node (res : Except String JVal) (st : DCState) : DCState :=
  let cd := st.checkin_data.getD (.jobj [])
  if ¬ isObj cd then pushErr st "Emotional analysis error: get" else
  if ¬ pyTruthy (objGetD cd "mood" .jnull) then st else
  match res with
  | .error e => pushErr st ("Emotional analysis error: " ++ e)
  | .ok r => { st with emotional_analysis := some r }

/-- Python numeric coercion for an order comparison with an int literal:
bools are ints; other JSON payloads raise `TypeError`. -/
def asPyNumber : JVal → Option ℚ
  | .jnum q => some q
  | .jbool b => some (if b then 1 else 0)
  | _ => none

/-- The sleep branch of `_intervention_detection_node` (lines 292-305). -/
def sleepStage (cd : JVal) (sleepRes : Except String JVal) :
    Except String (List JVal) :=
  let sq := (objGet cd "sleep_quality").getD .jnull
  if ¬ pyTruthy sq then .ok [] else
  match asPyNumber sq with
  | none => .error "not supported between instances"
  | some q =>
    if q < 3 then
      match sleepRes with
      | .error e => .error e
      | .ok r =>
        if ¬ isObj r then .error "get" else
        .ok [.jobj
          [("type", .jstr "sleep"),
           ("severity", .jstr (if q < 2 then "high" else "medium")),
           ("recommendation",
            objGetD r "recommendation" (.jstr "Focus on sleep quality tonight")),
           ("actions", objGetD r "actions" (.jarr []))]]
    else .ok []

/-- The stress branch of `_intervention_detection_node` (lines 307-320). -/
def stressStage (cd : JVal) (stressRes : Except String JVal) :
    Except String (List JVal) :=
  let sl := (objGet cd "stress_level").getD .jnull
  let isVeryHigh :=
    match sl with
    | .jstr s => s == "very_high"
    | _ => false
  let inlist :=
    match sl with
    | .jstr s => s == "high" || s == "very_high"
    | _ => false
  if ¬ (pyTruthy sl && inlist) then .ok [] else
  match stressRes with
  | .error e => .error e
  | .ok r =>
    if ¬ isObj r then .error "get" else
    .ok [.jobj
      [("type", .jstr "stress"),
       ("severity", .jstr (if isVeryHigh then "high" else "medium")),
       ("recommendation",
        objGetD r "recommendation" (.jstr "Consider stress management techniques")),
       ("actions", objGetD r "actions" (.jarr []))]]

/-- The soreness branch of `_intervention_detection_node`
(lines 322-330): no external call. -/
def sorenessItems (cd : JVal) : List JVal :=
  let so := (objGet cd "soreness_level").getD .jnull
  let isSevere :=
    match so with
    | .jstr s => s == "severe"
    | _ => false
  let inlist :=
    match so with
    | .jstr s => s == "high" || s == "severe"
    | _ => false
  if pyTruthy so && inlist then
    [.jobj
      [("type", .jstr "recovery"),
       ("severity", .jstr (if isSevere then "high" else "medium")),
       ("recommendation", .jstr "Reduce workout intensity today"),
       ("actions", .jarr [.jstr "Active recovery", .jstr "Stretching",
                          .jstr "Light cardio only"])]]
  else []

/-- `_intervention_detection_node` (lines 282-340).  The local
`interventions` list is only stored into the state at the end, so a
failure in a later branch leaves `active_interventions` untouched. -/
def intervention_detection_node (sleepRes stressRes : Except String JVal)
    (st : DCState) : DCState :=
  let cd := st.checkin_data.getD (.jobj [])
  if ¬ isObj cd then pushErr st "Intervention detection error: get" else
  match sleepStage cd sleepRes with
  | .error m => pushErr st ("Intervention detection error: " ++ m)
  | .ok items1 =>
    match stressStage cd stressRes with
    | .error m => pushErr st ("Intervention detection error: " ++ m)
    | .ok items2 =>
      let items := items1 ++ items2 ++ sorenessItems cd
      { st with active_interventions := some items }

/-- Python `str(value)` inside an f-string; container reprs are
abbreviated (no claim depends on diagnostic text). -/
def pyStr : JVal → String
  | .jnull => "None"
  | .jbool b => if b then "True" else "False"
  | .jnum q => toString q
  | .jstr s => s
  | .jarr _ => "[...]"
  | .jobj _ => "..."

/-- `_barrier_detection_node` (lines 342-372). -/
def barrier_detection_node (res : Except String JVal) (st : DCState) : DCState :=
  let cd := st.checkin_data.getD (.jobj [])
  if ¬ isObj cd then pushErr st "Barrier detection error: get" else
  match res with
  | .error e => pushErr st ("Barrier detection error: " ++ e)
  | .ok r =>
    if ¬ isObj r then pushErr st "Barrier detection error: get" else
    if pyTruthy (objGetD r "detected" (.jbool false)) then
      let item : JVal := .jobj
        [("type", .jstr "barrier"),
         ("severity", .jstr "medium"),
         ("recommendation",
          .jstr ("Potential barrier detected: " ++
            pyStr ((objGet r "primary_barrier").getD .jnull))),
         ("actions", objGetD r "mitigation_strategies" (.jarr []))]
      let items := (st.active_interventions.getD []) ++ [item]
      { st with active_interventions := some items }
    else st

/-- `_schedule_check_node` (lines 374-396): indexes
`state["current_date"]` directly — `KeyError` when absent. -/
def schedule_check_node (res : Except String JVal) (st : DCState) : DCState :=
  match st.current_date with
  | none => pushErr st "Schedule check error: current_date"
  | some _ =>
    match res with
    | .error e => pushErr st ("Schedule check error: " ++ e)
    | .ok r =>
      if ¬ isObj r then pushErr st "Schedule check error: get" else
      { st with schedule_conflicts := some (objGetD r "conflicts" (.jarr [])) }

/-- Can a payload be a dict key (`generators.get(effective_goal)`)? -/
def pyHashable : JVal → Bool
  | .jarr _ => false
  | .jobj _ => false
  | _ => true

/-- `_workout_generation_node` (lines 399-458).  Mutation order kept:
`daily_plan`, `morning_briefing` and `daily_tasks` are assigned before
the `"workout" in daily_plan.get("primary_focus", {})` test, so a
`TypeError` there leaves those three fields assigned and appends the
diagnostic. -/
def workout_generation_node (planRes : Except String JVal) (st : DCState) :
    DCState :=
  let prof := st.user_profile.getD (.jobj [])
  if ¬ isObj prof then pushErr st "Daily plan generation error: get" else
  let temp := st.temp_focus_shift.getD .jnull
  let effectiveGoal :=
    if pyTruthy temp then temp else objGetD prof "primary_goal" (.jstr "wellness")
  if ¬ pyHashable effectiveGoal then
    pushErr st "Daily plan generation error: unhashable type" else
  match planRes with
  | .error e => pushErr st ("Daily plan generation error: " ++ e)
  | .ok plan0 =>
    let planRes2 : Except String JVal :=
      if pyTruthy temp then
        match effectiveGoal with
        | .jstr g =>
          match plan0 with
          | .jobj fields =>
            (match objGet plan0 "morning_briefing" with
             | some (.jstr mb) =>
               let reason := (st.focus_shift_reason).getD (.jstr "health balance")
               let notice :=
                 "\n\n FOCUS SHIFT: Today's plan is shifted to " ++
                 String.mk (pyUpper g.data) ++ " focus due to " ++ pyStr reason ++
                 ". Your primary goal will resume once you recover."
               .ok (.jobj (setKey fields "morning_briefing" (.jstr (mb ++ notice))))
             | some _ => .error "can only concatenate str"
             | none => .error "morning_briefing")
          | _ => .error "not subscriptable"
        | _ => .error "upper"
      else .ok plan0
    match planRes2 with
    | .error m => pushErr st ("Daily plan generation error: " ++ m)
    | .ok plan =>
      if ¬ isObj plan then pushErr st "Daily plan generation error: get" else
      let stPart :=
        { st with daily_plan := some plan,
                  morning_briefing := some (objGetD plan "morning_briefing" (.jstr "")),
                  daily_tasks := some (objGetD plan "tasks" (.jarr [])) }
      let pf := objGetD plan "primary_focus" (.jobj [])
      match pf with
      | .jobj fs =>
        if fs.any (fun kv => kv.1 == "workout") then
          { stPart with workout_plan := objGet pf "workout" }
        else stPart
      | .jarr xs =>
        if xs.any (fun x => match x with | .jstr s => s == "workout" | _ => false) then
          pushErr stPart "Daily plan generation error: list indices"
        else stPart
      | .jstr s =>
        if isSubstr "workout".data s.data then
          pushErr stPart "Daily plan generation error: string indices"
        else stPart
      | _ => pushErr stPart "Daily plan generation error: argument of type"

/-- `_workout_modification_node` (lines 460-486). -/
def workout_modification_node (res : Except String JVal) (st : DCState) : DCState :=
  let interventions := st.active_interventions.getD []
  let wp := st.workout_plan.getD (.jobj [])
  if ¬ (¬ interventions.isEmpty && pyTruthy wp) then st else
  match res with
  | .error e => pushErr st ("Workout modification error: " ++ e)
  | .ok r =>
    if ¬ isObj r then pushErr st "Workout modification error: get" else
    { st with workout_plan := some (objGetD r "workout" wp),
              modifications := some (objGetD r "modifications" (.jarr [])) }

/-- `_task_generation_node` (lines 488-509). -/
def task_generation_node (res : Except String JVal) (st : DCState) : DCState :=
  match res with
  | .error e => pushErr st ("Task generation error: " ++ e)
  | .ok r =>
    if ¬ isObj r then pushErr st "Task generation error: get" else
    { st with daily_tasks := some (objGetD r "tasks" (.jarr [])) }

/-- `_save_results_node` (the overriding definition at lines 511-519):
returns the state unchanged. -/
def save_results_node (st : DCState) : DCState := st

/-- All external-call results one daily-check run consumes. -/
structure DCParams where
  profileRes : Except String JVal := .ok (.jobj [])
  checkinRes : Except String (Option CheckinRow) := .ok none
  today : String := ""
  biometricRes : Except String JVal := .ok (.jobj [])
  occupationRes : Except String JVal := .ok (.jobj [])
  emotionalRes : Except String JVal := .ok (.jobj [])
  sleepRes : Except String JVal := .ok (.jobj [])
  stressRes : Except String JVal := .ok (.jobj [])
  barrierRes : Except String JVal := .ok (.jobj [])
  calendarRes : Except String JVal := .ok (.jobj [])
  planRes : Except String JVal := .ok (.jobj [])
  modRes : Except String JVal := .ok (.jobj [])
  taskRes : Except String JVal := .ok (.jobj [])

/-- The node sequence `run()` wires together, in declaration order. -/
def dailyCheckSteps (p : DCParams) : List (DCState → DCState) :=
  [fetch_user_context p.profileRes p.checkinRes p.today,
   load_memory_node,
   biometric_analysis_node p.biometricRes,
   occupation_analysis_node p.occupationRes,
   emotional_analysis_node p.emotionalRes,
   intervention_detection_node p.sleepRes p.stressRes,
   barrier_detection_node p.barrierRes,
   schedule_check_node p.calendarRes,
   workout_generation_node p.planRes,
   workout_modification_node p.modRes,
   task_generation_node p.taskRes,
   save_results_node]

/-- Run a list of pipeline steps in order over the state. -/
def runSteps (steps : List (DCState → DCState)) (st : DCState) : DCState :=
  steps.foldl (fun s f => f s) st

/-- `DailyCheckWorkflow.run` (lines 521-570): execute the node sequence. -/
def runDailyCheck (p : DCParams) (st : DCState) : DCState :=
  runSteps (dailyCheckSteps p) st

/-! # Claim theorems -/

/-- All emitted factors of an assessment, across the four categories. -/
def allRiskFactors (R : RiskAssessment) : List RiskFactor :=
  R.user_risks ++ R.context_risks ++ R.exercise_risks ++ R.interaction_risks

/-- C3.  Risk aggregation: for every input, `overall_risk_score` is the
arithmetic mean of the severities of all emitted factors when at least
one factor is emitted, and the fixed floor `1/10` when none is; and
`total_risk_factors` is the number of emitted factors. -/
theorem risk_score_mean_floor_count (p : RAUserProfile) (plan : List RAExercise)
    (c : RAContext) :
    (comprehensive_risk_assessment p plan c).overall_risk_score =
      (if (allRiskFactors (comprehensive_risk_assessment p plan c)).isEmpty then 1 / 10
       else ((allRiskFactors (comprehensive_risk_assessment p plan c)).map
           (fun f => f.severity)).sum /
         (allRiskFactors (comprehensive_risk_assessment p plan c)).length) ∧
    (comprehensive_risk_assessment p plan c).total_risk_factors =
      (allRiskFactors (comprehensive_risk_assessment p plan c)).length := by
  simp only [comprehensive_risk_assessment, allRiskFactors]
  constructor
  · split
    · next h => simp [h]
    · next h => simp [h]
  · trivial

/-- C5.  (a) `synthesize_debate` raises `NameError` on every input (the
f-string user prompt reads the unbound name `primary_goal`), so no
structure — complete or otherwise — is ever returned; (b) even the dead
default-fill code behind it (lines 117-125) patches only a wholly
missing `debate_summary` and never adds `final_decision`: applied to the
parse-failure sentinel it returns a mapping still lacking
`final_decision`. -/
theorem synthesize_debate_never_returns_structure :
    (∀ dh resp, synthesize_debate dh resp =
      .error (.nameErr "name primary_goal is not defined")) ∧
    (∀ s, synthDefaultFill (parseSentinel s) =
        .ok (.jobj [("error", .jstr "Failed to parse LLM response"),
                    ("raw_response", .jstr s),
                    ("debate_summary", summaryPlaceholder)]) ∧
      objGet (.jobj [("error", .jstr "Failed to parse LLM response"),
                     ("raw_response", .jstr s),
                     ("debate_summary", summaryPlaceholder)]) "final_decision" = none) := by
  refine ⟨fun dh resp => rfl, fun s => ⟨rfl, rfl⟩⟩

/-- C6.  The synthesis step of the onboarding pipeline raises to its
caller on every input: `_coordination_node` (which has no try/except)
calls `synthesize_debate` with two positional arguments — a `TypeError`
— and even a fixed call would hit the `NameError` of C5; the node never
returns a state. -/
theorem coordination_node_always_raises (st : OnbState) :
    (coordination_node st).isOk = false := by
  unfold coordination_node
  split <;> rfl

theorem parseJson_nil : parseJson [] = none := rfl

/-- C4.  Two-tier parse fallback: for every input the parser returns the
raw-parse result when that succeeds, otherwise the parse of the
fence-stripped first-brace-to-last-brace substring when that exists and
succeeds, otherwise the error sentinel — it is a total function, so it
never raises; and concretely, the fenced example parses to the inner
object and garbage yields the sentinel. -/
theorem two_tier_json_fallback :
    (∀ s : String, parse_json_response s =
      (match parseJson s.data with
       | some v => v
       | none =>
         match specFallbackSlice s with
         | some sub =>
           match parseJson sub with
           | some v => v
           | none => parseSentinel s
         | none => parseSentinel s)) ∧
    parse_json_response "```json\n\x7b\"a\":1\x7d\n```" = .jobj [("a", .jnum 1)] ∧
    parse_json_response "total garbage" = parseSentinel "total garbage" := by
  refine ⟨fun s => ?_, rfl, rfl⟩
  unfold parse_json_response specFallbackSlice
  cases parseJson s.data with
  | some v => rfl
  | none =>
    cases hf : pyFindChar lbrace (fenceClean s.data) with
    | none => simp [hf]
    | some i =>
      cases hr : pyRFindChar rbrace (fenceClean s.data) with
      | none =>
        have hslice : pySlice (fenceClean s.data) i 0 = [] := by
          simp [pySlice]
        simp [hf, hr, hslice, parseJson_nil]
      | some j =>
        by_cases hij : i ≤ j
        · simp [hf, hr, hij]
        · have hslice : pySlice (fenceClean s.data) i (j + 1) = [] := by
            have h0 : j + 1 - i = 0 := by omega
            simp [pySlice, h0]
          simp [hf, hr, hij, hslice, parseJson_nil]

/-- C9 fails as stated: on unparsable generation output, `challenge`
returns stance `"unknown"`, which is none of
`support` / `challenge` / `conditional`. -/
theorem challenge_stance_unknown_counterexample :
    (challenge "zzz").map (fun o => o.stance) = .ok "unknown" ∧
    ¬ ("unknown" ∈ (["support", "challenge", "conditional"] : List String)) := by
  exact ⟨rfl, by decide⟩

/-- C9, amended.  The challenge operation (when it returns) yields the
lowercased stance string supplied by the parsed response, defaulting to
`"unknown"` when the field is absent or parsing fell back to the
sentinel — it is not restricted to the three advertised values — along
with the pass-through fields: `reasoning` (default `""`), `concerns`
(default `[]`), `counter_proposal` (default `None`), `confidence`
(default `0.5`), and the raw parsed mapping. -/
theorem challenge_output_fields (response : String) (out : ChallengeOut)
    (h : challenge response = .ok out) :
    (out.stance = "unknown" ∨
      ∃ s : String, objGet (parse_json_response response) "stance" = some (.jstr s) ∧
        out.stance = String.mk (pyLower s.data)) ∧
    out.reasoning = objGetD (parse_json_response response) "reasoning" (.jstr "") ∧
    out.concerns = objGetD (parse_json_response response) "concerns" (.jarr []) ∧
    out.counter_proposal = objGetD (parse_json_response response) "counter_proposal" .jnull ∧
    out.confidence = objGetD (parse_json_response response) "confidence" (.jnum (1 / 2)) ∧
    out.raw = parse_json_response response := by
  simp only [challenge] at h
  split at h
  · split at h
    · next s heq =>
      cases h
      refine ⟨?_, rfl, rfl, rfl, rfl, rfl⟩
      rcases ho : objGet (parse_json_response response) "stance" with _ | v
      · rw [ho] at heq
        simp only [Option.getD] at heq
        cases heq
        exact Or.inl rfl
      · rw [ho] at heq
        simp only [Option.getD] at heq
        cases heq
        exact Or.inr ⟨s, rfl, rfl⟩
    · exact absurd h (by simp)
  · exact absurd h (by simp)

/-- Closed instance of C9's amended theorem at an unparsable response. -/
theorem challenge_output_fields_witness :
    (challenge "zzz").map (fun o => o.raw) = .ok (parse_json_response "zzz") := by
  have h : challenge "zzz" =
      .ok ⟨"unknown", .jstr "", .jarr [], .jnull, .jnum (1 / 2), parseSentinel "zzz"⟩ := rfl
  have hraw := (challenge_output_fields "zzz" _ h).2.2.2.2.2
  rw [h]
  exact congrArg Except.ok hraw

/-- C7 fails as stated: `_goal_setting_node` has no try/except, so a
failing generation call propagates out of the step instead of being
appended to `state.errors` — here concretely, with any state. -/
theorem goal_setting_node_propagates_counterexample :
    goal_setting_node (.error (.exc "generation timeout"))
        ({ user_id := "1" } : OnbState) =
      .error (.exc "generation timeout") := rfl

/-- C7, amended.  Daily-check steps wrap their bodies in try/except and
degrade gracefully: when the first underlying call of
`_fetch_user_context` (the profile fetch) fails, the step returns a
state identical to its input except for exactly one diagnostic string
appended to `errors`, and the pipeline continues.  Onboarding steps such
as `_goal_setting_node` have no such guard and propagate the exception
(see the counterexample). -/
theorem fetch_user_context_isolation (e : String)
    (cr : Except String (Option CheckinRow)) (today : String) (st : DCState)
    (hid : (pyToInt st.user_id).isSome = true) :
    fetch_user_context (.error e) cr today st =
      { st with errors := st.errors ++ ["Profile fetch error: " ++ e] } := by
  unfold fetch_user_context
  cases hpi : pyToInt st.user_id with
  | none => rw [hpi] at hid; simp at hid
  | some n => rfl

/-- Closed instance of C7's amended theorem. -/
theorem fetch_user_context_isolation_witness :
    fetch_user_context (.error "boom") (.ok none) "2026-01-01"
        ({ user_id := "42" } : DCState) =
      { ({ user_id := "42" } : DCState) with
        errors := [] ++ ["Profile fetch error: " ++ "boom"] } := by
  exact fetch_user_context_isolation "boom" (.ok none) "2026-01-01"
    ({ user_id := "42" } : DCState) (by decide)

/-! ### Append-only error accounting for the daily-check steps -/

/-- A pipeline step only ever appends to `errors`. -/
def ErrMono (f : DCState → DCState) : Prop :=
  ∀ st, ∃ t, (f st).errors = st.errors ++ t

theorem errMono_fetch (pr : Except String JVal)
    (cr : Except String (Option CheckinRow)) (today : String) :
    ErrMono (fetch_user_context pr cr today) := by
  intro st
  unfold fetch_user_context pushErr
  repeat'
    first
      | exact ⟨[], (List.append_nil _).symm⟩
      | exact ⟨_, rfl⟩
      | split
      | dsimp only

theorem errMono_load_memory : ErrMono load_memory_node :=
  fun st => ⟨[], (List.append_nil _).symm⟩

theorem errMono_biometric (r : Except String JVal) :
    ErrMono (biometric_analysis_node r) := by
  intro st
  unfold biometric_analysis_node pushErr
  repeat'
    first
      | exact ⟨[], (List.append_nil _).symm⟩
      | exact ⟨_, rfl⟩
      | split
      | dsimp only

theorem errMono_occupation (r : Except String JVal) :
    ErrMono (occupation_analysis_node r) := by
  intro st
  unfold occupation_analysis_node pushErr
  repeat'
    first
      | exact ⟨[], (List.append_nil _).symm⟩
      | exact ⟨_, rfl⟩
      | split
      | dsimp only

theorem errMono_emotional (r : Except String JVal) :
    ErrMono (emotional_analysis_node r) := by
  intro st
  unfold emotional_analysis_node pushErr
  repeat'
    first
      | exact ⟨[], (List.append_nil _).symm⟩
      | exact ⟨_, rfl⟩
      | split
      | dsimp only

theorem errMono_intervention (r1 r2 : Except String JVal) :
    ErrMono (intervention_detection_node r1 r2) := by
  intro st
  unfold intervention_detection_node pushErr
  repeat'
    first
      | exact ⟨[], (List.append_nil _).symm⟩
      | exact ⟨_, rfl⟩
      | split
      | dsimp only

theorem errMono_barrier (r : Except String JVal) :
    ErrMono (barrier_detection_node r) := by
  intro st
  unfold barrier_detection_node pushErr
  repeat'
    first
      | exact ⟨[], (List.append_nil _).symm⟩
      | exact ⟨_, rfl⟩
      | split
      | dsimp only

theorem errMono_schedule (r : Except String JVal) :
    ErrMono (schedule_check_node r) := by
  intro st
  unfold schedule_check_node pushErr
  repeat'
    first
      | exact ⟨[], (List.append_nil _).symm⟩
      | exact ⟨_, rfl⟩
      | split
      | dsimp only

theorem errMono_workout_gen (r : Except String JVal) :
    ErrMono (workout_generation_node r) := by
  intro st
  unfold workout_generation_node pushErr
  repeat'
    first
      | exact ⟨[], (List.append_nil _).symm⟩
      | exact ⟨_, rfl⟩
      | split
      | dsimp only

theorem errMono_workout_mod (r : Except String JVal) :
    ErrMono (workout_modification_node r) := by
  intro st
  unfold workout_modification_node pushErr
  repeat'
    first
      | exact ⟨[], (List.append_nil _).symm⟩
      | exact ⟨_, rfl⟩
      | split
      | dsimp only

theorem errMono_task_gen (r : Except String JVal) :
    ErrMono (task_generation_node r) := by
  intro st
  unfold task_generation_node pushErr
  repeat'
    first
      | exact ⟨[], (List.append_nil _).symm⟩
      | exact ⟨_, rfl⟩
      | split
      | dsimp only

theorem errMono_save_results : ErrMono save_results_node :=
  fun st => ⟨[], (List.append_nil _).symm⟩

theorem errMono_runSteps (steps : List (DCState → DCState))
    (h : ∀ f ∈ steps, ErrMono f) : ErrMono (runSteps steps) := by
  induction steps with
  | nil => exact fun st => ⟨[], (List.append_nil _).symm⟩
  | cons f fs ih =>
    intro st
    obtain ⟨t1, h1⟩ := h f (by simp) st
    obtain ⟨t2, h2⟩ := ih (fun g hg => h g (by simp [hg])) (f st)
    refine ⟨t1 ++ t2, ?_⟩
    show (runSteps fs (f st)).errors = _
    rw [h2, h1, List.append_assoc]

theorem errMono_dailyCheckSteps (p : DCParams) :
    ∀ f ∈ dailyCheckSteps p, ErrMono f := by
  intro f hf
  simp only [dailyCheckSteps, List.mem_cons, List.not_mem_nil, or_false] at hf
  rcases hf with rfl | rfl | rfl | rfl | rfl | rfl | rfl | rfl | rfl | rfl | rfl | rfl
  · exact errMono_fetch _ _ _
  · exact errMono_load_memory
  · exact errMono_biometric _
  · exact errMono_occupation _
  · exact errMono_emotional _
  · exact errMono_intervention _ _
  · exact errMono_barrier _
  · exact errMono_schedule _
  · exact errMono_workout_gen _
  · exact errMono_workout_mod _
  · exact errMono_task_gen _
  · exact errMono_save_results

theorem runSteps_append (l1 l2 : List (DCState → DCState)) (st : DCState) :
    runSteps (l1 ++ l2) st = runSteps l2 (runSteps l1 st) := by
  simp [runSteps, List.foldl_append]

/-- C8.  Append-only errors: (a) at every intermediate point of a
daily-check run the error list so far is a prefix of the final error
list, so no step removes, edits or reorders an existing entry;
(b) hence the final list is at least as long as the initial one;
(c) `process_node` likewise only appends (it catches the synthesis
`TypeError` and appends one diagnostic). -/
theorem errors_append_only :
    (∀ (p : DCParams) (st : DCState) (i : Nat),
      ∃ t, (runDailyCheck p st).errors =
        (runSteps ((dailyCheckSteps p).take i) st).errors ++ t) ∧
    (∀ (p : DCParams) (st : DCState),
      st.errors.length ≤ (runDailyCheck p st).errors.length) ∧
    (∀ st : OnbState,
      ∃ t, (process_node st).errors.getD [] = st.errors.getD [] ++ t) := by
  have key : ∀ (p : DCParams) (st : DCState) (i : Nat),
      ∃ t, (runDailyCheck p st).errors =
        (runSteps ((dailyCheckSteps p).take i) st).errors ++ t := by
    intro p st i
    have hsplit : runDailyCheck p st =
        runSteps ((dailyCheckSteps p).drop i)
          (runSteps ((dailyCheckSteps p).take i) st) := by
      rw [runDailyCheck, ← runSteps_append, List.take_append_drop]
    obtain ⟨t, ht⟩ := errMono_runSteps ((dailyCheckSteps p).drop i)
      (fun f hf => errMono_dailyCheckSteps p f (List.mem_of_mem_drop hf))
      (runSteps ((dailyCheckSteps p).take i) st)
    exact ⟨t, by rw [hsplit, ht]⟩
  refine ⟨key, ?_, ?_⟩
  · intro p st
    obtain ⟨t, ht⟩ := key p st 0
    have h0 : runSteps ((dailyCheckSteps p).take 0) st = st := rfl
    rw [h0] at ht
    simp [ht]
  · intro st
    refine ⟨["Meta-Coordinator error: synthesize_debate takes 2 positional arguments but 3 were given"], ?_⟩
    simp [process_node]

/-- C10.  Silent skip of invalid memory updates: (a) persisting any
update list is identical to persisting only its valid updates — an
update with missing/falsy `agent_name`, `learning_type` or `content`
(empty dict included) changes no row, raises nothing, and records no
error, while the other updates in the list are still persisted;
(b) an update with `expires_after_days = 0` (falsy in Python) is
inserted with no expiry, exactly like an absent field. -/
theorem persist_skips_invalid_updates :
    (∀ (uid : Int) (updates : List MemUpdate) (store : List MemRow) (now : ℚ),
      persist_from_state uid updates store now =
        persist_from_state uid (updates.filter validUpdate) store now) ∧
    (∀ (uid : Int) (u : MemUpdate) (store : List MemRow) (now : ℚ),
      validUpdate u = true → u.expires_after_days = some 0 →
      store.filter (keyMatch uid (u.agent_name.getD "") (u.learning_type.getD "")) = [] →
      persist_from_state uid [u] store now =
        .ok (store ++ [{ user_id := uid, agent_name := u.agent_name.getD "",
                         learning_type := u.learning_type.getD "",
                         content := u.content.getD .jnull,
                         confidence := u.confidence.getD 1, expires_at := none,
                         created_at := now, updated_at := now }])) := by
  constructor
  · intro uid updates store now
    induction updates generalizing store with
    | nil => rfl
    | cons u us ih =>
      by_cases hv : validUpdate u
      · show List.foldlM _ store (u :: us) = _
        rw [List.filter_cons_of_pos hv]
        show List.foldlM _ store (u :: us) = List.foldlM _ store (u :: us.filter validUpdate)
        rw [List.foldlM_cons, List.foldlM_cons]
        cases h : applyUpdate uid now store u with
        | error e => rfl
        | ok s2 => exact ih s2
      · have ha : applyUpdate uid now store u = .ok store := by
          simp [applyUpdate, hv]
        show List.foldlM _ store (u :: us) = _
        rw [List.filter_cons_of_neg (by simp [hv])]
        rw [List.foldlM_cons, ha]
        exact ih store
  · intro uid u store now hv hexp hkey
    have ha : applyUpdate uid now store u =
        .ok (store ++ [{ user_id := uid, agent_name := u.agent_name.getD "",
                         learning_type := u.learning_type.getD "",
                         content := u.content.getD .jnull,
                         confidence := u.confidence.getD 1, expires_at := none,
                         created_at := now, updated_at := now }]) := by
      unfold applyUpdate
      rw [if_neg (by simp [hv])]
      dsimp only
      rw [hkey, hexp]
      simp
    show List.foldlM _ store [u] = _
    rw [List.foldlM_cons, ha]
    rfl

/-- Closed instance of C10's theorem: a valid update with
`expires_after_days = 0` inserts a row with no expiry. -/
theorem persist_skips_invalid_updates_witness :
    persist_from_state 1 [⟨some "a", some "t", some (.jstr "x"), none, some 0⟩] [] 0 =
      .ok ([] ++ [⟨1, "a", "t", .jstr "x", 1, none, 0, 0⟩]) := by
  exact persist_skips_invalid_updates.2 1
    ⟨some "a", some "t", some (.jstr "x"), none, some 0⟩ [] 0 (by decide) rfl rfl

/-- The `ORDER BY confidence DESC, updated_at DESC` relation on the
returned dict entries. -/
def dictOrd (d1 d2 : MemDict) : Prop :=
  d2.confidence < d1.confidence ∨
    (d1.confidence = d2.confidence ∧ d2.updated_at ≤ d1.updated_at)

theorem load_all_perm (uid : Int) (now : ℚ) (l : List MemRow) :
    ((load_to_state uid l now none none).all).Perm
      ((l.filter (loadCond uid now none none)).map toMemDict) :=
  (List.perm_insertionSort memLe _).map toMemDict

theorem load_all_filter_perm (uid : Int) (now : ℚ) (l : List MemRow)
    (p : MemDict → Bool) :
    (((load_to_state uid l now none none).all).filter p).Perm
      ((l.filter (fun r => loadCond uid now none none r && p (toMemDict r))).map
        toMemDict) := by
  have h1 := (load_all_perm uid now l).filter p
  rw [List.filter_map, List.filter_filter] at h1
  have h2 : (List.filter (fun a => (p ∘ toMemDict) a && loadCond uid now none none a) l) =
      (List.filter (fun r => loadCond uid now none none r && p (toMemDict r)) l) :=
    List.filter_congr (fun r _ => by simp [Function.comp, Bool.and_comm])
  rw [h2] at h1
  exact h1

/-- C2.  Load filtering and ordering: `all` is exactly (a permutation
presenting) the stored rows whose confidence is at least `0.5` and whose
expiry is absent or in the future, for the requested user — rows failing
either test are excluded though still in the store — and `all` and every
`by_type` / `by_agent` bucket are ordered by descending confidence with
ties broken by descending `updated_at`. -/
theorem load_filtering_and_ordering (uid : Int) (store : List MemRow) (now : ℚ) :
    ((load_to_state uid store now none none).all).Perm
        ((store.filter (loadCond uid now none none)).map toMemDict) ∧
    ((load_to_state uid store now none none).all).Pairwise dictOrd ∧
    (∀ ty, ((load_to_state uid store now none none).by_type ty).Perm
        ((store.filter (fun r => loadCond uid now none none r &&
            (r.learning_type == ty))).map toMemDict)) ∧
    (∀ ty, ((load_to_state uid store now none none).by_type ty).Pairwise dictOrd) ∧
    (∀ ag, ((load_to_state uid store now none none).by_agent ag).Perm
        ((store.filter (fun r => loadCond uid now none none r &&
            (r.agent_name == ag))).map toMemDict)) ∧
    (∀ ag, ((load_to_state uid store now none none).by_agent ag).Pairwise dictOrd) := by
  have hall : ((load_to_state uid store now none none).all).Pairwise dictOrd := by
    show List.Pairwise dictOrd (List.map toMemDict _)
    rw [List.pairwise_map]
    exact (List.sorted_insertionSort memLe _).imp (fun h => h)
  refine ⟨load_all_perm uid now store, hall, ?_, ?_, ?_, ?_⟩
  · intro ty
    exact load_all_filter_perm uid now store (fun d => d.learning_type == ty)
  · intro ty
    exact List.Pairwise.sublist (List.filter_sublist _) hall
  · intro ag
    exact load_all_filter_perm uid now store (fun d => d.agent_name == ag)
  · intro ag
    exact List.Pairwise.sublist (List.filter_sublist _) hall

theorem filter_nil_of_imp {q pk : MemRow → Bool} (l : List MemRow)
    (himp : ∀ r, q r = true → pk r = true) (h : l.filter pk = []) :
    l.filter q = [] := by
  rw [List.filter_eq_nil_iff] at h ⊢
  exact fun a ha hq => h a ha (himp a hq)

theorem map_if_not_matching (l : List MemRow) (pk : MemRow → Bool)
    (g : MemRow → MemRow) (h : l.filter pk = []) :
    (l.map (fun r => if pk r then g r else r)) = l := by
  induction l with
  | nil => rfl
  | cons r rs ih =>
    rw [List.filter_cons] at h
    by_cases hp : pk r
    · simp [hp] at h
    · simp only [List.map_cons, if_neg hp]
      rw [ih (by simpa [hp] using h)]

/-- C1, amended.  Memory round-trip for a *loadable* confidence:
for `1/2 ≤ c ≤ 1` and truthy agent / type / content, persisting a fresh
(U,A,T) fact stores exactly one row with content `C` and confidence
`min(1, c) = c`, a load returns exactly one fact for (A,T) with that
content and confidence, and a second persist with new content `C2`
updates that single row in place (no duplicate): the store still holds
exactly one (U,A,T) row, now with content `C2` and confidence
`min(1, c + 0.1)`, and a load reflects it.  The original claim is false
for `c < 1/2` (see the counterexample): the fact is stored but
`load_to_state` filters it out. -/
theorem memory_round_trip (uid : Int) (A T : String) (C C2 : JVal)
    (c now1 now2 now3 now4 : ℚ) (store : List MemRow)
    (hA : A ≠ "") (hT : T ≠ "") (hC : pyTruthy C = true) (hC2 : pyTruthy C2 = true)
    (hclo : 1 / 2 ≤ c) (hchi : c ≤ 1)
    (hfresh : store.filter (keyMatch uid A T) = []) :
    ∃ s1,
      persist_from_state uid [⟨some A, some T, some C, some c, none⟩] store now1 =
        .ok s1 ∧
      s1.filter (keyMatch uid A T) = [⟨uid, A, T, C, c, none, now1, now1⟩] ∧
      ((load_to_state uid s1 now2 none none).all).filter
          (fun d => d.agent_name == A && d.learning_type == T) =
        [⟨A, T, C, min 1 c, now1, now1⟩] ∧
      ∃ s2,
        persist_from_state uid [⟨some A, some T, some C2, some c, none⟩] s1 now3 =
          .ok s2 ∧
        s2.filter (keyMatch uid A T) =
          [⟨uid, A, T, C2, min 1 (c + 1 / 10), none, now1, now3⟩] ∧
        ((load_to_state uid s2 now4 none none).all).filter
            (fun d => d.agent_name == A && d.learning_type == T) =
          [⟨A, T, C2, min 1 (c + 1 / 10), now1, now3⟩] := by
  set row1 : MemRow := ⟨uid, A, T, C, c, none, now1, now1⟩ with hrow1
  set row2 : MemRow := ⟨uid, A, T, C2, min 1 (c + 1 / 10), none, now1, now3⟩ with hrow2
  have hkeyrow1 : keyMatch uid A T row1 = true := by simp [keyMatch, hrow1]
  have hkeyrow2 : keyMatch uid A T row2 = true := by simp [keyMatch, hrow2]
  -- first persist inserts row1 at the end
  have h1 : persist_from_state uid [⟨some A, some T, some C, some c, none⟩] store now1 =
      .ok (store ++ [row1]) := by
    show List.foldlM _ store _ = _
    rw [List.foldlM_cons]
    have ha : applyUpdate uid now1 store ⟨some A, some T, some C, some c, none⟩ =
        .ok (store ++ [row1]) := by
      unfold applyUpdate
      rw [if_neg (by simp [validUpdate, strTruthy, jvalTruthy, hA, hT, hC])]
      dsimp only [Option.getD]
      rw [hfresh]
    rw [ha]
    rfl
  -- key filter of s1
  have hkey1 : (store ++ [row1]).filter (keyMatch uid A T) = [row1] := by
    rw [List.filter_append, hfresh, List.nil_append, List.filter_cons_of_pos hkeyrow1]
    rfl
  -- load filter characterization, used twice
  have himp : ∀ (now : ℚ) (r : MemRow),
      (loadCond uid now none none r &&
        ((toMemDict r).agent_name == A && (toMemDict r).learning_type == T)) = true →
      keyMatch uid A T r = true := by
    intro now r hq
    rw [Bool.and_eq_true] at hq
    obtain ⟨hl, hp⟩ := hq
    simp only [loadCond, Bool.and_eq_true] at hl
    simp only [toMemDict, Bool.and_eq_true, beq_iff_eq] at hp
    simp [keyMatch, hp.1, hp.2]
    obtain ⟨⟨⟨⟨hu, _⟩, _⟩, _⟩, _⟩ := hl
    exact beq_iff_eq.mp hu
  have hload : ∀ (now : ℚ) (rowN : MemRow), keyMatch uid A T rowN = true →
      (loadCond uid now none none rowN = true) →
      ((load_to_state uid (store ++ [rowN]) now none none).all).filter
          (fun d => d.agent_name == A && d.learning_type == T) = [toMemDict rowN] := by
    intro now rowN hk hc2
    have hperm := load_all_filter_perm uid now (store ++ [rowN])
      (fun d => d.agent_name == A && d.learning_type == T)
    rw [List.filter_append] at hperm
    rw [filter_nil_of_imp store (himp now) hfresh] at hperm
    have hr : (loadCond uid now none none rowN &&
        ((toMemDict rowN).agent_name == A && (toMemDict rowN).learning_type == T)) = true := by
      simp only [keyMatch, Bool.and_eq_true, beq_iff_eq] at hk
      simp [toMemDict, hc2, hk.1.2, hk.2]
    rw [List.nil_append] at hperm
    have hsing : List.filter
        (fun r => loadCond uid now none none r &&
          ((toMemDict r).agent_name == A && (toMemDict r).learning_type == T)) [rowN] =
        [rowN] := by
      simp [hr]
    rw [hsing] at hperm
    exact List.perm_singleton.mp hperm
  have hcond1 : loadCond uid now2 none none row1 = true := by
    simp [loadCond, hrow1]
    linarith
  have hload1 := hload now2 row1 hkeyrow1 hcond1
  -- second persist updates row1 in place
  have hvalid2 : validUpdate ⟨some A, some T, some C2, some c, none⟩ = true := by
    simp [validUpdate, strTruthy, jvalTruthy, hA, hT, hC2]
  have h2 : persist_from_state uid [⟨some A, some T, some C2, some c, none⟩]
      (store ++ [row1]) now3 = .ok (store ++ [row2]) := by
    show List.foldlM _ _ _ = _
    rw [List.foldlM_cons]
    have ha : applyUpdate uid now3 (store ++ [row1]) ⟨some A, some T, some C2, some c, none⟩ =
        .ok (store ++ [row2]) := by
      unfold applyUpdate
      rw [if_neg (by simp [hvalid2])]
      dsimp only [Option.getD]
      rw [hkey1]
      rw [List.map_append]
      rw [map_if_not_matching store (keyMatch uid A T) _ hfresh]
      simp only [List.map_cons, List.map_nil, if_pos hkeyrow1]
    rw [ha]
    rfl
  have hkey2 : (store ++ [row2]).filter (keyMatch uid A T) = [row2] := by
    rw [List.filter_append, hfresh, List.nil_append, List.filter_cons_of_pos hkeyrow2]
    rfl
  have hcond2 : loadCond uid now4 none none row2 = true := by
    simp [loadCond, hrow2, le_inf_iff]
    refine ⟨by norm_num, by linarith⟩
  have hload2 := hload now4 row2 hkeyrow2 hcond2
  refine ⟨store ++ [row1], h1, hkey1, ?_, store ++ [row2], h2, hkey2, ?_⟩
  · rw [hload1]
    rw [min_eq_right hchi]
    rfl
  · rw [hload2]
    rfl

/-- C1 fails as stated: persisting a fact with confidence `0.4` stores
it, yet a subsequent load returns no fact at all for (A,T) — not
"exactly one fact with content C and confidence min(1, c)". -/
theorem memory_round_trip_low_confidence_counterexample :
    persist_from_state 1 [⟨some "a", some "t", some (.jstr "x"), some (4 / 10), none⟩] [] 0 =
      .ok [⟨1, "a", "t", .jstr "x", 4 / 10, none, 0, 0⟩] ∧
    (load_to_state 1 [⟨1, "a", "t", .jstr "x", 4 / 10, none, 0, 0⟩] 0 none none).all = [] := by
  refine ⟨rfl, ?_⟩
  have hrow : loadCond 1 0 none none ⟨1, "a", "t", .jstr "x", 4 / 10, none, 0, 0⟩ = false := by
    simp [loadCond]
    norm_num
  simp [load_to_state, List.filter_cons, hrow, List.insertionSort]

/-- Closed instance of C1's amended theorem: the first-load equality at
`c = 1/2` on an empty store. -/
theorem memory_round_trip_witness :
    ((load_to_state 1 ([] ++ [⟨1, "a", "t", .jstr "x", 1 / 2, none, 0, 0⟩]) 1 none none).all).filter
        (fun d => d.agent_name == "a" && d.learning_type == "t") =
      [⟨"a", "t", .jstr "x", min 1 (1 / 2), 0, 0⟩] := by
  obtain ⟨s1, h1, hk1, hl1, _⟩ :=
    memory_round_trip 1 "a" "t" (.jstr "x") (.jstr "y") (1 / 2) 0 1 2 3 []
      (by decide) (by decide) (by decide) (by decide) (by norm_num) (by norm_num) rfl
  have hpc : persist_from_state 1
      [⟨some "a", some "t", some (.jstr "x"), some (1 / 2), none⟩] [] 0 =
      .ok ([] ++ [⟨1, "a", "t", .jstr "x", 1 / 2, none, 0, 0⟩]) := rfl
  rw [hpc] at h1
  cases h1
  exact hl1
